import Mathlib

/-!
Shallow embedding of `src/lib/litra.py`: the Litra command encoder
(`litra_command`), the inbound report decoder (`Litra.process_result`),
the property setters of the `Litra` class, and the polling loop
(`Litra.test_inputs`).

Python dynamic values flowing through the setters are modelled by `PyVal`
(ints, floats as exact rationals, bools, None); Python exceptions are
modelled by `PyErr`, and a Python function that can raise returns
`Except PyErr _`.  `print` calls carry no state and are dropped.
-/

/-- A dynamically typed Python value, as it reaches the property setters.
Floats are modelled as exact rationals (the claims only use values such as
3000.5 that are exactly representable). -/
inductive PyVal where
  | vInt (n : ℤ)
  | vFloat (q : ℚ)
  | vBool (b : Bool)
  | vNone
deriving DecidableEq

/-- The Python exception classes the embedded code can raise. -/
inductive PyErr where
  | valueError
  | typeError
  | keyError
  | indexError
  | runtimeError
  | attributeError
deriving DecidableEq

/-- Python `isinstance(value, int)`: true for ints and also for bools,
since `bool` is a subclass of `int`. -/
def PyVal.isinstance_int : PyVal → Bool
  | .vInt _ => true
  | .vBool _ => true
  | _ => false

/-- The integer a Python int-or-bool denotes in arithmetic/comparisons
(`True == 1`, `False == 0`).  Only consulted under an `isinstance_int`
guard; the remaining constructors are unreachable there. -/
def PyVal.as_int : PyVal → ℤ
  | .vInt n => n
  | .vBool b => if b then 1 else 0
  | _ => 0

/-- Numeric interpretation of a value for Python comparison operators:
`none` means the comparison raises `TypeError` (as for `None`). -/
def PyVal.toRat? : PyVal → Option ℚ
  | .vInt n => some (n : ℚ)
  | .vFloat q => some q
  | .vBool b => some (if b then 1 else 0)
  | .vNone => none

/-- `LITRA_COMMAND_BUFFER_PREFIX = [0x11, 0xff, 0x04]`. -/
def LITRA_COMMAND_BUFFER_PREFIX : List ℕ := [0x11, 0xff, 0x04]

/-- `LITRA_COMMAND_BUFFER_LENGTH = 20`. -/
def LITRA_COMMAND_BUFFER_LENGTH : ℕ := 20

/-- The `LITRA_COMMANDS` dict; `none` models a `KeyError` on lookup. -/
def LITRA_COMMANDS : String → Option ℕ
  | "power_get" => some 0x1b
  | "power" => some 0x1c
  | "brightness" => some 0x4c
  | "temperature" => some 0x9c
  | _ => none

/-- Python `int.bit_length()` on a natural number. -/
def bit_length (n : ℕ) : ℕ :=
  if n = 0 then 0 else Nat.log2 n + 1

/-- `math.ceil(value.bit_length() / 8)`: the byte count used by
`litra_command` for the value encoding. -/
def value_len (value : ℕ) : ℕ :=
  (bit_length value + 7) / 8

/-- Python `value.to_bytes(length=len)`, big-endian (the Python 3.11
default byteorder). -/
def to_bytes (value len : ℕ) : List ℕ :=
  (List.range len).map (fun i => value / 256 ^ (len - 1 - i) % 256)

/-- The value bytes `litra_command` emits for `value`: the minimal
big-endian encoding, `to_bytes` at the `ceil(bit_length/8)` length.
For `value = 0` this is the empty list. -/
def value_bytes_of (value : ℕ) : List ℕ :=
  to_bytes value (value_len value)

/-- `litra_command(command, value)` from the source: prefix, command code,
minimal big-endian value bytes, then zero padding up to 20 bytes.  In
Python `[0] * k` is empty for `k ≤ 0`, which truncated `Nat` subtraction
reproduces, so an oversized value yields an unpadded overlong buffer.
An unknown command name raises `KeyError`. -/
def litra_command (command : String) (value : ℕ) : Except PyErr (List ℕ) :=
  match LITRA_COMMANDS command with
  | none => .error .keyError
  | some command_code =>
    let output := LITRA_COMMAND_BUFFER_PREFIX ++ [command_code] ++ value_bytes_of value
    .ok (output ++ List.replicate (LITRA_COMMAND_BUFFER_LENGTH - output.length) 0)

/-- `INPUT_CODES`: report field code to attribute name. -/
def INPUT_CODES : ℕ → Option String
  | 0 => some "power"
  | 16 => some "brightness"
  | 32 => some "temperature"
  | _ => none

/-- Python `int.from_bytes(bs)` (big-endian default); raises `ValueError`
when an entry is not a byte. -/
def int_from_bytes (bs : List ℕ) : Except PyErr ℕ :=
  if bs.all (fun b => b < 256) then
    .ok (bs.foldl (fun acc b => acc * 256 + b) 0)
  else .error .valueError

/-- `__validate_power`: first payload byte must be 0 or 1 (else
`RuntimeError`; an empty payload raises `IndexError`), returned as
`bool(input_value)`. -/
def validate_power (input_data : List ℕ) : Except PyErr PyVal :=
  match input_data with
  | [] => .error .indexError
  | input_value :: _ =>
    if ¬ (input_value = 0 ∨ input_value = 1) then .error .runtimeError
    else .ok (.vBool (input_value != 0))

/-- `__validate_brightness`: first two payload bytes as a big-endian int. -/
def validate_brightness (input_data : List ℕ) : Except PyErr PyVal :=
  (int_from_bytes (input_data.take 2)).map (fun n => .vInt n)

/-- `__validate_temperature`: first two payload bytes as a big-endian int. -/
def validate_temperature (input_data : List ℕ) : Except PyErr PyVal :=
  (int_from_bytes (input_data.take 2)).map (fun n => .vInt n)

/-- The `INPUT_VALIDATION` dict applied at a field code; a missing key is
a `KeyError`. -/
def INPUT_VALIDATION (code : ℕ) (input_data : List ℕ) : Except PyErr PyVal :=
  match code with
  | 0 => validate_power input_data
  | 16 => validate_brightness input_data
  | 32 => validate_temperature input_data
  | _ => .error .keyError

/-- The fields of the `Litra` object the claims concern: the private
`__power`, `__brightness`, `__temperature` slots.  `power` only ever
stores a bool and `brightness` only ever stores an int (their setters
enforce this), while `temperature` stores whatever value its setter
accepted. -/
structure LitraState where
  power : Option Bool
  brightness : Option ℤ
  temperature : Option PyVal
deriving DecidableEq

/-- The state right after `__init__`: all three slots set to `None`. -/
def litra_init : LitraState :=
  { power := none, brightness := none, temperature := none }

/-- The `power` property setter: `ValueError` unless the value is a bool,
else store it. -/
def LitraState.power_setter (s : LitraState) (value : PyVal) :
    Except PyErr LitraState :=
  match value with
  | .vBool b => .ok { s with power := some b }
  | _ => .error .valueError

/-- The `brightness` property setter: a non-int value or an int outside
[20, 250] is rejected with a printed message and `return` — no exception,
state unchanged.  In-range ints are stored. -/
def LitraState.brightness_setter (s : LitraState) (value : PyVal) :
    LitraState :=
  if ¬ value.isinstance_int then s
  else if ¬ (20 ≤ value.as_int ∧ value.as_int ≤ 250) then s
  else { s with brightness := some value.as_int }

/-- The `temperature` property setter: no type check, only the chained
comparison `2700 <= value <= 6500`; out of range raises `ValueError`,
comparing `None` raises `TypeError`, otherwise the value is stored
as-is. -/
def LitraState.temperature_setter (s : LitraState) (value : PyVal) :
    Except PyErr LitraState :=
  match value.toRat? with
  | none => .error .typeError
  | some q =>
    if ¬ (2700 ≤ q ∧ q ≤ 6500) then .error .valueError
    else .ok { s with temperature := some value }

/-- `setattr(self, attr_name, value)` for the three property names that
`INPUT_CODES` can produce. -/
def LitraState.setattr_field (s : LitraState) (name : String) (value : PyVal) :
    Except PyErr LitraState :=
  if name = "power" then s.power_setter value
  else if name = "brightness" then .ok (s.brightness_setter value)
  else if name = "temperature" then s.temperature_setter value
  else .error .attributeError

/-- The decoding phase of `Litra.process_result`, up to but excluding the
`setattr`.  The source guard is `if not result_list[0:2] != [17, 255, 4]`:
it compares a two-element slice against a three-element list, so it is
translated literally as written (`.ok none` is the `print("invalid list");
return` branch).  Then `input_code = result_list[3]` (`IndexError` when
absent), the `INPUT_CODES` lookup (`KeyError` when unknown) and the
`INPUT_VALIDATION` call on the remaining payload. -/
def decode_report (result_list : List ℕ) :
    Except PyErr (Option (String × PyVal)) :=
  if ¬ (result_list.take 2 ≠ [17, 255, 4]) then
    .ok none
  else
    match result_list.drop 3 with
    | [] => .error .indexError
    | input_code :: input_data =>
      match INPUT_CODES input_code with
      | none => .error .keyError
      | some attr_name =>
        match INPUT_VALIDATION input_code input_data with
        | .error e => .error e
        | .ok value => .ok (some (attr_name, value))

/-- `Litra.process_result`: decode the buffer and, when a field update was
produced, assign it through the matching property setter. -/
def LitraState.process_result (s : LitraState) (result : List ℕ) :
    Except PyErr LitraState :=
  match decode_report result with
  | .error e => .error e
  | .ok none => .ok s
  | .ok (some (attr_name, value)) => s.setattr_field attr_name value

/-- One iteration's input in `Litra.test_inputs`: either the USB read
timed out (`USBTimeoutError`, caught and ignored) or it delivered a
buffer. -/
inductive ReadEvent where
  | timeout
  | buf (b : List ℕ)

/-- `Litra.test_inputs` over a finite inbound sequence (the `while True`
loop until external cancellation).  The `try` block catches only
`usb.core.USBTimeoutError`; any exception raised by `process_result`
propagates and terminates the loop. -/
def test_inputs (s : LitraState) : List ReadEvent → Except PyErr LitraState
  | [] => .ok s
  | .timeout :: rest => test_inputs s rest
  | .buf b :: rest =>
    match s.process_result b with
    | .error e => .error e
    | .ok s2 => test_inputs s2 rest

/-- A mutation attempt on a `Litra` object: an assignment to one of the
three properties, or an inbound report run through `process_result`. -/
inductive LitraEvent where
  | setPower (v : PyVal)
  | setBrightness (v : PyVal)
  | setTemperature (v : PyVal)
  | report (b : List ℕ)

/-- The state after one mutation attempt.  When the Python code raises,
the exception propagates and the object's fields keep their prior
values, so an `.error` outcome leaves the state unchanged. -/
def LitraState.step (s : LitraState) : LitraEvent → LitraState
  | .setPower v =>
    match s.power_setter v with
    | .ok s2 => s2
    | .error _ => s
  | .setBrightness v => s.brightness_setter v
  | .setTemperature v =>
    match s.temperature_setter v with
    | .ok s2 => s2
    | .error _ => s
  | .report b =>
    match s.process_result b with
    | .ok s2 => s2
    | .error _ => s

/-- The state reached from `s` after a sequence of mutation attempts. -/
def litra_run (s : LitraState) (evs : List LitraEvent) : LitraState :=
  evs.foldl LitraState.step s

/-- The claimed state invariant: each field is either still `None` or a
validated value — a bool for power, an integer in [20, 250] for
brightness, a numeric value in [2700, 6500] for temperature. -/
def LitraInv (s : LitraState) : Prop :=
  (s.power = none ∨ ∃ b, s.power = some b) ∧
  (s.brightness = none ∨ ∃ n, s.brightness = some n ∧ 20 ≤ n ∧ n ≤ 250) ∧
  (s.temperature = none ∨
    ∃ v q, s.temperature = some v ∧ v.toRat? = some q ∧ 2700 ≤ q ∧ q ≤ 6500)

deriving instance DecidableEq for Except

/-! ## Helper lemmas -/

lemma to_bytes_length (value len : ℕ) : (to_bytes value len).length = len := by
  simp [to_bytes]

lemma value_bytes_of_length (value : ℕ) :
    (value_bytes_of value).length = value_len value := by
  simp [value_bytes_of, to_bytes_length]

lemma log2_two_pow_128 : Nat.log2 (2 ^ 128) = 128 := by
  rw [Nat.log2_eq_log_two]
  exact Nat.log_pow Nat.one_lt_two 128

lemma bit_length_two_pow_128 : bit_length (2 ^ 128) = 129 := by
  have h0 : (2 : ℕ) ^ 128 ≠ 0 := pow_ne_zero _ two_ne_zero
  rw [bit_length, if_neg h0, log2_two_pow_128]

lemma value_len_two_pow_128 : value_len (2 ^ 128) = 17 := by
  rw [value_len, bit_length_two_pow_128]

lemma bit_length_one : bit_length 1 = 1 := by
  rw [bit_length, if_neg one_ne_zero]
  norm_num [Nat.log2]

lemma value_len_one : value_len 1 = 1 := by
  rw [value_len, bit_length_one]

lemma value_bytes_of_one : value_bytes_of 1 = [1] := by
  rw [value_bytes_of, value_len_one]
  decide

/-! ## Claim theorems -/

/-- C1.  The claim fails and the code is at fault: the prefix guard in
`process_result` compares the two-element slice `result_list[0:2]` with the
three-element list `[17, 255, 4]` (and inverts the test), so it can never
fire.  A report whose first three bytes are `[0, 0, 0]` — the wrong
prefix — is decoded anyway and mutates the brightness field to 250, and a
buffer shorter than 4 bytes fails with an `IndexError` from `pop(0)`
rather than through the malformed-report path. -/
theorem c1_prefix_check_dead :
    litra_init.process_result ([0, 0, 0, 16, 0, 250] ++ List.replicate 58 0) =
      .ok { litra_init with brightness := some 250 } ∧
    litra_init.process_result [17, 255, 4] = .error .indexError := by
  constructor <;> decide

/-- C2, counterexample.  For value 0, `litra_command` emits no value byte
at all: `value.bit_length()` is 0, so zero bytes are encoded, refuting the
claim that at least one value byte is emitted.  The resulting buffer is
the prefix, the command code and 16 padding zeros. -/
theorem c2_counterexample :
    ¬ 1 ≤ (value_bytes_of 0).length ∧
    litra_command "power" 0 = .ok ([17, 255, 4, 28] ++ List.replicate 16 0) := by
  constructor <;> decide

/-- C2, amended.  For every recognized command, encoding value 0 emits
zero value bytes; the buffer is the 3-byte prefix and the command code
followed by 16 padding zeros, indistinguishable from an encoding with no
value field. -/
theorem c2_zero_emits_no_value_bytes (command : String) (code : ℕ)
    (hcmd : LITRA_COMMANDS command = some code) :
    value_bytes_of 0 = [] ∧
    litra_command command 0 = .ok ([17, 255, 4, code] ++ List.replicate 16 0) := by
  have hz : value_bytes_of 0 = [] := rfl
  refine ⟨hz, ?_⟩
  simp [litra_command, hcmd, hz, LITRA_COMMAND_BUFFER_PREFIX,
    LITRA_COMMAND_BUFFER_LENGTH]

/-- C2, witness for the amended theorem at `("power", 0)`. -/
theorem c2_zero_emits_no_value_bytes_witness :
    LITRA_COMMANDS "power" = some 28 ∧
    (value_bytes_of 0 = [] ∧
     litra_command "power" 0 = .ok ([17, 255, 4, 28] ++ List.replicate 16 0)) :=
  ⟨rfl, c2_zero_emits_no_value_bytes "power" 28 rfl⟩

/-- C3, counterexample.  A single bad report does terminate the loop: on
the sequence [unknown-field report, valid brightness report] the loop
aborts with the `KeyError` from the first report, while the second report
alone would have set brightness to 250. -/
theorem c3_counterexample :
    test_inputs litra_init
      [.buf ([17, 255, 4, 1, 0] ++ List.replicate 59 0),
       .buf ([17, 255, 4, 16, 0, 250] ++ List.replicate 58 0)] =
      .error .keyError ∧
    test_inputs litra_init
      [.buf ([17, 255, 4, 16, 0, 250] ++ List.replicate 58 0)] =
      .ok { litra_init with brightness := some 250 } := by
  constructor <;> decide

/-- C3, amended.  Only USB read timeouts are skipped by the polling loop;
any report on which `process_result` raises (unknown field code, short
body, invalid power payload) propagates its exception and terminates the
loop, leaving the remaining reports unprocessed. -/
theorem c3_bad_report_terminates_loop (s : LitraState) (b : List ℕ)
    (e : PyErr) (rest rest2 : List ReadEvent)
    (h : s.process_result b = .error e) :
    test_inputs s (.buf b :: rest) = .error e ∧
    test_inputs s (.timeout :: rest2) = test_inputs s rest2 := by
  refine ⟨?_, rfl⟩
  simp [test_inputs, h]

/-- C3, witness for the amended theorem: the unknown-field report
`[17, 255, 4, 1, 0, …]` raises `KeyError` and stops the loop before the
following report. -/
theorem c3_bad_report_terminates_loop_witness :
    litra_init.process_result ([17, 255, 4, 1, 0] ++ List.replicate 59 0) =
      .error .keyError ∧
    test_inputs litra_init
      [.buf ([17, 255, 4, 1, 0] ++ List.replicate 59 0),
       .buf ([17, 255, 4, 16, 0, 250] ++ List.replicate 58 0)] =
      .error .keyError :=
  ⟨by decide,
   (c3_bad_report_terminates_loop litra_init
      ([17, 255, 4, 1, 0] ++ List.replicate 59 0) .keyError
      [.buf ([17, 255, 4, 16, 0, 250] ++ List.replicate 58 0)] []
      (by decide)).1⟩

/-- C7.  The brightness setter is a soft rejection: for an integer
argument it stores the value exactly when it lies in [20, 250] (inclusive
boundaries, so 20 and 250 are stored while 19 and 251 are not) and
otherwise returns with the state unchanged.  It never raises — its
embedding is a total function into `LitraState`. -/
theorem c7_brightness_soft_rejection (s : LitraState) (n : ℤ) :
    s.brightness_setter (.vInt n) =
      if 20 ≤ n ∧ n ≤ 250 then { s with brightness := some n } else s := by
  by_cases h : 20 ≤ n ∧ n ≤ 250 <;>
    simp [LitraState.brightness_setter, PyVal.isinstance_int, PyVal.as_int, h]

/-- C8.  The temperature setter is a hard error: for an integer argument
it stores the value exactly when it lies in [2700, 6500] (inclusive, so
2700 and 6500 succeed) and otherwise raises a `ValueError` — the error the
spec names `InvalidTemperature` — leaving the stored temperature
unchanged (an `.error` outcome carries no new state). -/
theorem c8_temperature_hard_error (s : LitraState) (n : ℤ) :
    s.temperature_setter (.vInt n) =
      if 2700 ≤ n ∧ n ≤ 6500
      then .ok { s with temperature := some (.vInt n) }
      else .error .valueError := by
  by_cases h : 2700 ≤ n ∧ n ≤ 6500
  · have hq : 2700 ≤ (n : ℚ) ∧ (n : ℚ) ≤ 6500 := by exact_mod_cast h
    simp [LitraState.temperature_setter, PyVal.toRat?, hq, h]
  · have hq : ¬ (2700 ≤ (n : ℚ) ∧ (n : ℚ) ≤ 6500) := by exact_mod_cast h
    simp [LitraState.temperature_setter, PyVal.toRat?, hq, h]

/-- C9.  The temperature setter performs no integer type check: any
non-integer numeric value (denominator ≠ 1) inside [2700, 6500] is
accepted and stored in the temperature field as-is. -/
theorem c9_temperature_accepts_nonint (s : LitraState) (q : ℚ)
    (h1 : 2700 ≤ q) (h2 : q ≤ 6500) (_h3 : q.den ≠ 1) :
    s.temperature_setter (.vFloat q) =
      .ok { s with temperature := some (.vFloat q) } := by
  simp [LitraState.temperature_setter, PyVal.toRat?, h1, h2]

/-- C9, witness at the float 3000.5 = 6001/2. -/
theorem c9_temperature_accepts_nonint_witness :
    2700 ≤ (6001 / 2 : ℚ) ∧ (6001 / 2 : ℚ) ≤ 6500 ∧
    (6001 / 2 : ℚ).den ≠ 1 ∧
    litra_init.temperature_setter (.vFloat (6001 / 2)) =
      .ok { litra_init with temperature := some (.vFloat (6001 / 2)) } :=
  ⟨by norm_num, by norm_num, by norm_num,
   c9_temperature_accepts_nonint litra_init (6001 / 2)
     (by norm_num) (by norm_num) (by norm_num)⟩

/-- C4, counterexample.  `litra_command` never fails on an oversized
value: at `2 ^ 128`, whose minimal encoding needs 17 > 16 bytes, it
returns (rather than rejects) a buffer — of length 21, overflowing the
20-byte layout. -/
theorem c4_counterexample :
    (litra_command "power" (2 ^ 128)).toOption.map List.length = some 21 := by
  have key : ∀ v : ℕ, value_len v = 17 →
      (litra_command "power" v).toOption.map List.length = some 21 := by
    intro v hv
    have hcmd : LITRA_COMMANDS "power" = some 28 := rfl
    simp only [litra_command, hcmd, Except.toOption, Option.map,
      List.length_append, List.length_cons, List.length_nil,
      LITRA_COMMAND_BUFFER_PREFIX, LITRA_COMMAND_BUFFER_LENGTH,
      List.length_replicate, value_bytes_of_length, hv, Option.some.injEq]
  exact key (2 ^ 128) value_len_two_pow_128

/-- C4, amended.  For every recognized command and every value whose
minimal encoding needs more than 16 bytes, `litra_command` does not fail:
Python's `[0] * k` is empty for negative `k`, so it returns the unpadded
buffer prefix ++ code ++ value bytes, which is longer than 20 bytes. -/
theorem c4_oversized_value_unpadded (command : String) (code value : ℕ)
    (hcmd : LITRA_COMMANDS command = some code) (hv : 16 < value_len value) :
    litra_command command value =
      .ok (LITRA_COMMAND_BUFFER_PREFIX ++ [code] ++ value_bytes_of value) ∧
    20 < (LITRA_COMMAND_BUFFER_PREFIX ++ [code] ++ value_bytes_of value).length := by
  have hlen : (LITRA_COMMAND_BUFFER_PREFIX ++ [code] ++ value_bytes_of value).length
      = 4 + value_len value := by
    simp [LITRA_COMMAND_BUFFER_PREFIX, value_bytes_of_length]
    omega
  have h20 : LITRA_COMMAND_BUFFER_LENGTH -
      (LITRA_COMMAND_BUFFER_PREFIX ++ [code] ++ value_bytes_of value).length = 0 := by
    rw [hlen, LITRA_COMMAND_BUFFER_LENGTH]
    omega
  constructor
  · have hstep : litra_command command value =
        .ok (LITRA_COMMAND_BUFFER_PREFIX ++ [code] ++ value_bytes_of value ++
          List.replicate (LITRA_COMMAND_BUFFER_LENGTH -
            (LITRA_COMMAND_BUFFER_PREFIX ++ [code] ++ value_bytes_of value).length)
            0) := by
      simp only [litra_command, hcmd]
    rw [hstep, h20]
    simp
  · rw [hlen]
    omega

/-- C4, witness for the amended theorem at `("power", 2 ^ 128)`. -/
theorem c4_oversized_value_unpadded_witness :
    LITRA_COMMANDS "power" = some 28 ∧ 16 < value_len (2 ^ 128) ∧
    (litra_command "power" (2 ^ 128) =
       .ok (LITRA_COMMAND_BUFFER_PREFIX ++ [28] ++ value_bytes_of (2 ^ 128)) ∧
     20 < (LITRA_COMMAND_BUFFER_PREFIX ++ [28] ++ value_bytes_of (2 ^ 128)).length) :=
  ⟨rfl, by rw [value_len_two_pow_128]; norm_num,
   c4_oversized_value_unpadded "power" 28 (2 ^ 128) rfl
     (by rw [value_len_two_pow_128]; norm_num)⟩

/-- C5.  For every recognized command name and every value whose minimal
big-endian encoding fits in the 16 bytes after the prefix and code,
`litra_command` returns a 20-byte buffer starting with `[0x11, 0xff,
0x04]` whose 4th byte is the command's code. -/
theorem c5_encode_shape (command : String) (code value : ℕ)
    (hcmd : LITRA_COMMANDS command = some code) (hv : value_len value ≤ 16) :
    ∃ buf, litra_command command value = .ok buf ∧ buf.length = 20 ∧
      buf.take 3 = [0x11, 0xff, 0x04] ∧ buf[3]? = some code := by
  have hlb : (value_bytes_of value).length = value_len value :=
    value_bytes_of_length value
  refine ⟨17 :: 255 :: 4 :: code ::
      (value_bytes_of value ++
        List.replicate (LITRA_COMMAND_BUFFER_LENGTH -
          (LITRA_COMMAND_BUFFER_PREFIX ++ [code] ++ value_bytes_of value).length)
          0),
    ?_, ?_, ?_, ?_⟩
  · simp [litra_command, hcmd, LITRA_COMMAND_BUFFER_PREFIX]
  · simp [LITRA_COMMAND_BUFFER_PREFIX, LITRA_COMMAND_BUFFER_LENGTH, hlb]
    omega
  · rfl
  · simp

/-- C5, witness at `("power", 1)`, with the claim's concrete instance:
`litra_command "power" 1` is `[0x11, 0xff, 0x04, 0x1c, 0x01]` followed by
15 zero bytes. -/
theorem c5_encode_shape_witness :
    LITRA_COMMANDS "power" = some 28 ∧ value_len 1 ≤ 16 ∧
    (∃ buf, litra_command "power" 1 = .ok buf ∧ buf.length = 20 ∧
       buf.take 3 = [0x11, 0xff, 0x04] ∧ buf[3]? = some 28) ∧
    litra_command "power" 1 = .ok ([17, 255, 4, 28, 1] ++ List.replicate 15 0) :=
  ⟨rfl, by rw [value_len_one]; norm_num,
   c5_encode_shape "power" 28 1 rfl (by rw [value_len_one]; norm_num),
   by simp [litra_command, LITRA_COMMANDS, value_bytes_of_one,
        LITRA_COMMAND_BUFFER_PREFIX, LITRA_COMMAND_BUFFER_LENGTH]⟩

/-- C6.  Round-trip: for every field code recognized by `INPUT_CODES`
and every payload its validator accepts, decoding the buffer formed by
prefixing the payload with the header `[0x11, 0xff, 0x04, F]` yields
exactly the field name and the validator's value. -/
theorem c6_roundtrip (F : ℕ) (name : String) (payload : List ℕ) (v : PyVal)
    (h1 : INPUT_CODES F = some name)
    (h2 : INPUT_VALIDATION F payload = .ok v) :
    decode_report (17 :: 255 :: 4 :: F :: payload) = .ok (some (name, v)) := by
  simp [decode_report, h1, h2]

/-- C6, witness: decoding `[0x11, 0xff, 0x04, 16, 0x00, 0xfa, padding]`
yields brightness 250 (first two payload bytes read big-endian). -/
theorem c6_roundtrip_witness :
    INPUT_CODES 16 = some "brightness" ∧
    INPUT_VALIDATION 16 ([0, 250] ++ List.replicate 58 0) = .ok (.vInt 250) ∧
    decode_report (17 :: 255 :: 4 :: 16 :: ([0, 250] ++ List.replicate 58 0)) =
      .ok (some ("brightness", .vInt 250)) :=
  ⟨rfl, by decide,
   c6_roundtrip 16 "brightness" ([0, 250] ++ List.replicate 58 0)
     (.vInt 250) rfl (by decide)⟩

/-! ## Invariant preservation lemmas for C10 -/

lemma power_setter_inv {s s2 : LitraState} {v : PyVal}
    (hs : LitraInv s) (h : s.power_setter v = .ok s2) : LitraInv s2 := by
  cases v with
  | vBool b =>
    simp only [LitraState.power_setter, Except.ok.injEq] at h
    subst h
    exact ⟨Or.inr ⟨b, rfl⟩, hs.2.1, hs.2.2⟩
  | vInt n => simp [LitraState.power_setter] at h
  | vFloat q => simp [LitraState.power_setter] at h
  | vNone => simp [LitraState.power_setter] at h

lemma brightness_setter_inv (s : LitraState) (v : PyVal) (hs : LitraInv s) :
    LitraInv (s.brightness_setter v) := by
  by_cases h1 : v.isinstance_int = true
  · by_cases h2 : 20 ≤ v.as_int ∧ v.as_int ≤ 250
    · have he : s.brightness_setter v = { s with brightness := some v.as_int } := by
        simp [LitraState.brightness_setter, h1, h2]
      rw [he]
      exact ⟨hs.1, Or.inr ⟨v.as_int, rfl, h2.1, h2.2⟩, hs.2.2⟩
    · have he : s.brightness_setter v = s := by
        simp [LitraState.brightness_setter, h1, h2]
      rw [he]
      exact hs
  · have he : s.brightness_setter v = s := by
      simp [LitraState.brightness_setter, h1]
    rw [he]
    exact hs

lemma temperature_setter_inv {s s2 : LitraState} {v : PyVal}
    (hs : LitraInv s) (h : s.temperature_setter v = .ok s2) : LitraInv s2 := by
  unfold LitraState.temperature_setter at h
  cases hq : v.toRat? with
  | none => rw [hq] at h; simp at h
  | some q =>
    rw [hq] at h
    by_cases hr : 2700 ≤ q ∧ q ≤ 6500
    · have h' : ({ s with temperature := some v } : LitraState) = s2 := by
        simpa [hr] using h
      subst h'
      exact ⟨hs.1, hs.2.1, Or.inr ⟨v, q, rfl, hq, hr.1, hr.2⟩⟩
    · simp [hr] at h

lemma setattr_field_inv {s s2 : LitraState} {name : String} {v : PyVal}
    (hs : LitraInv s) (h : s.setattr_field name v = .ok s2) : LitraInv s2 := by
  unfold LitraState.setattr_field at h
  by_cases h1 : name = "power"
  · rw [if_pos h1] at h
    exact power_setter_inv hs h
  · rw [if_neg h1] at h
    by_cases h2 : name = "brightness"
    · rw [if_pos h2] at h
      simp only [Except.ok.injEq] at h
      subst h
      exact brightness_setter_inv s v hs
    · rw [if_neg h2] at h
      by_cases h3 : name = "temperature"
      · rw [if_pos h3] at h
        exact temperature_setter_inv hs h
      · rw [if_neg h3] at h
        simp at h

lemma process_result_inv {s s2 : LitraState} {b : List ℕ}
    (hs : LitraInv s) (h : s.process_result b = .ok s2) : LitraInv s2 := by
  unfold LitraState.process_result at h
  cases hd : decode_report b with
  | error e => rw [hd] at h; simp at h
  | ok o =>
    rw [hd] at h
    cases o with
    | none =>
      simp only [Except.ok.injEq] at h
      subst h
      exact hs
    | some p =>
      obtain ⟨name, v⟩ := p
      exact setattr_field_inv hs h

lemma step_inv (s : LitraState) (e : LitraEvent) (hs : LitraInv s) :
    LitraInv (s.step e) := by
  cases e with
  | setPower v =>
    simp only [LitraState.step]
    cases h : s.power_setter v with
    | ok s2 => exact power_setter_inv hs h
    | error e => exact hs
  | setBrightness v =>
    simp only [LitraState.step]
    exact brightness_setter_inv s v hs
  | setTemperature v =>
    simp only [LitraState.step]
    cases h : s.temperature_setter v with
    | ok s2 => exact temperature_setter_inv hs h
    | error e => exact hs
  | report b =>
    simp only [LitraState.step]
    cases h : s.process_result b with
    | ok s2 => exact process_result_inv hs h
    | error e => exact hs

lemma litra_run_inv (evs : List LitraEvent) :
    ∀ s : LitraState, LitraInv s → LitraInv (litra_run s evs) := by
  induction evs with
  | nil => intro s hs; exact hs
  | cons e rest ih =>
    intro s hs
    simp only [litra_run, List.foldl_cons]
    exact ih (s.step e) (step_inv s e hs)

/-- C10.  In every state reachable from session creation by any sequence
of setter calls and inbound-report applications, power is `None` or a
bool, brightness is `None` or an integer in [20, 250], and temperature is
`None` or a numeric value in [2700, 6500]: every mutation path goes
through the validating setters, which preserve `LitraInv`. -/
theorem c10_reachable_invariant (evs : List LitraEvent) :
    LitraInv (litra_run litra_init evs) :=
  litra_run_inv evs litra_init ⟨Or.inl rfl, Or.inl rfl, Or.inl rfl⟩
